import Mathlib

/-!
Verification development for the KVDataStore embedded key-value store
(src/kvstoe.hpp, with src/kvstore.cpp and src/debugkv_store.cpp as
sibling variants). The in-memory `unordered_map<string, ValueEntry>` is
modelled as an association list with unique keys (map semantics:
`operator[]` assignment replaces an existing binding, `erase` removes
it, `count`/`at` become a single `lookupKey`). `time_t` is modelled as
`Int` (it is a signed arithmetic type); `time(nullptr)` becomes an
explicit `now : Int` argument. The nlohmann `json` values are opaque to
the store except for their serialized form `dump()`, so a value is
modelled as the record of its dump string. Each operation returns the
literal message string of the C++ code, the new map, and the file
content written when `saveToFile` ran on that path.
-/

namespace KVStore

/-- A structured value, opaque to the store except for its serialized
form: `v.dump` models the C++ `value.dump()` string. -/
structure Json where
  dump : String
deriving DecidableEq, Repr

/-- ValueEntry from src/kvstoe.hpp lines 12-15: the stored value plus
the `ttl` field, which holds the absolute expiry timestamp in seconds
since epoch, or 0 meaning the entry never expires. -/
structure ValueEntry where
  value : Json
  ttl : Int
deriving DecidableEq, Repr

/-- The in-memory map `unordered_map<string, ValueEntry>` as an
association list with unique keys. -/
abbrev Store := List (String × ValueEntry)

/-- Constant MAX_KEY_LENGTH from src/kvstoe.hpp line 22. -/
def MAX_KEY_LENGTH : Nat := 32

/-- Constant MAX_VALUE_SIZE from src/kvstoe.hpp line 23. -/
def MAX_VALUE_SIZE : Nat := 16 * 1024

/-- Constant BATCH_LIMIT from src/kvstoe.hpp line 136. -/
def BATCH_LIMIT : Nat := 100

/-- Map lookup: models both `store.count(key)` (via `isSome`) and
`store.at(key)` / `store[key]` reads on a present key. -/
def lookupKey : Store → String → Option ValueEntry
  | [], _ => none
  | (k, e) :: rest, key => if k = key then some e else lookupKey rest key

/-- Map assignment `store[key] = entry`: replaces the binding when the
key is present, appends it otherwise. -/
def insertKey : Store → String → ValueEntry → Store
  | [], key, e => [(key, e)]
  | (k, v) :: rest, key, e =>
      if k = key then (k, e) :: rest else (k, v) :: insertKey rest key e

/-- Map erasure `store.erase(key)`: removes the binding of `key`. On a
map with unique keys this removes exactly the one entry. -/
def eraseKey (s : Store) (key : String) : Store :=
  s.filter (fun p => p.1 ≠ key)

/-- Snapshot file content. `saveToFile` in src/kvstoe.hpp builds a
default-constructed `nlohmann::json j` — which is the JSON null value —
and then assigns `j[key] = ...` for every map entry; assignment turns
null into an object. So the written document is null exactly when the
store is empty, and otherwise the object of the store entries. -/
inductive JsonFile where
  | null : JsonFile
  | obj : List (String × ValueEntry) → JsonFile
deriving DecidableEq, Repr

/-- Serialization of one snapshot object member, following
src/kvstoe.hpp line 33: `j[key] = \x7b\x7b"value", entry.value\x7d, \x7b"ttl", entry.ttl\x7d\x7d`. -/
def memberDump (p : String × ValueEntry) : String :=
  "\"" ++ p.1 ++ "\":\x7b\"value\":" ++ p.2.value.dump ++ ",\"ttl\":" ++ toString p.2.ttl ++ "\x7d"

/-- The string `j.dump()` written to the snapshot file: `null` dumps as
the literal `null`, an object dumps as a brace-enclosed member list. -/
def JsonFile.dump : JsonFile → String
  | .null => "null"
  | .obj l => "\x7b" ++ String.intercalate "," (l.map memberDump) ++ "\x7d"

/-- saveToFile from src/kvstoe.hpp lines 26-41: serializes the whole
map into a fresh default-constructed json value (null when the store
contributes no member) and writes its dump, truncating the file. -/
def saveToFile (store : Store) : JsonFile :=
  if store = [] then .null else .obj store

/-- loadFromFile from src/kvstoe.hpp lines 43-57: iterates
`data.items()` and assigns `store[key] = ve` for each member. Iterating
a null json document yields no members. -/
def loadFromFile (file : JsonFile) (store : Store) : Store :=
  match file with
  | .null => store
  | .obj l => l.foldl (fun s p => insertKey s p.1 p.2) store

/-- isExpired from src/kvstoe.hpp lines 59-63: false when the key is
absent; otherwise `ttl != 0 && now > ttl` where the `ttl` field holds
the absolute expiry instant (0 meaning never). -/
def isExpired (store : Store) (key : String) (now : Int) : Bool :=
  match lookupKey store key with
  | none => false
  | some e => decide (e.ttl ≠ 0) && decide (now > e.ttl)

/-- cleanupExpiredKeys from src/kvstoe.hpp lines 65-74: one pass over
the map erasing every entry that isExpired reports expired. Erased keys
are not revisited, so the pass is the filter over the original map. -/
def cleanupExpiredKeys (store : Store) (now : Int) : Store :=
  store.filter (fun p => !isExpired store p.1 now)

/-- Result of one public operation: the exact message string the C++
method returns, the map after the call, and `some f` when the call ran
`saveToFile` writing file content `f` (`none` when it did not). -/
structure OpResult where
  msg : String
  store : Store
  persisted : Option JsonFile
deriving DecidableEq, Repr

/-- create from src/kvstoe.hpp lines 96-109: length check, serialized
size check, duplicate check, in that order, each returning its error
string with no mutation; on success stores
`\x7bvalue, ttl == 0 ? 0 : now + ttl\x7d` and persists. -/
def create (store : Store) (key : String) (value : Json) (now ttl : Int) : OpResult :=
  if key.length > MAX_KEY_LENGTH then
    ⟨"Error: Key length exceeds 32 characters.", store, none⟩
  else if value.dump.length > MAX_VALUE_SIZE then
    ⟨"Error: Value size exceeds 16KB.", store, none⟩
  else if (lookupKey store key).isSome then
    ⟨"Error: Key already exists.", store, none⟩
  else
    let st := insertKey store key ⟨value, if ttl = 0 then 0 else now + ttl⟩
    ⟨"Key-value pair created successfully.", st, some (saveToFile st)⟩

/-- read from src/kvstoe.hpp lines 111-122: KeyNotFound when absent;
when present but expired, erases the entry, persists, and reports the
expiry; otherwise returns the stored value dump unchanged. -/
def read (store : Store) (key : String) (now : Int) : OpResult :=
  match lookupKey store key with
  | none => ⟨"Error: Key not found.", store, none⟩
  | some e =>
    if isExpired store key now then
      let st := eraseKey store key
      ⟨"Error: Key has expired.", st, some (saveToFile st)⟩
    else
      ⟨e.value.dump, store, none⟩

/-- remove from src/kvstoe.hpp lines 124-131: KeyNotFound when absent;
otherwise erases the entry and persists. No expiry check appears in the
body, so an expired-but-present key is removed like any other. -/
def remove (store : Store) (key : String) : OpResult :=
  match lookupKey store key with
  | none => ⟨"Error: Key not found.", store, none⟩
  | some _ =>
    let st := eraseKey store key
    ⟨"Key-value pair deleted successfully.", st, some (saveToFile st)⟩

/-- The validation loop of batchCreate, src/kvstoe.hpp lines 141-148:
walks the batch in order and returns the first error string, checking
each key and value against the limits and each key against the store
map as it was at entry — the loop never consults earlier batch entries,
only `store.count(key)`. Returns none when every entry passes. -/
def validateBatch (store : Store) : List (String × Json) → Option String
  | [] => none
  | (key, value) :: rest =>
    if key.length > MAX_KEY_LENGTH ∨ value.dump.length > MAX_VALUE_SIZE then
      some "Error: One or more keys/values exceed size limits."
    else if (lookupKey store key).isSome then
      some "Error: Duplicate key found in batch."
    else validateBatch store rest

/-- The insertion loop of batchCreate, src/kvstoe.hpp lines 150-155:
assigns `store[key] = entry` for each batch entry in order, all with
the same computed expiry. -/
def insertBatch (store : Store) (entries : List (String × Json)) (now ttl : Int) : Store :=
  entries.foldl
    (fun s p => insertKey s p.1 ⟨p.2, if ttl = 0 then 0 else now + ttl⟩) store

/-- batchCreate from src/kvstoe.hpp lines 133-159: BATCH_LIMIT check
first, then the validation loop, then the insertion loop and one
persist at the end. -/
def batchCreate (store : Store) (entries : List (String × Json)) (now ttl : Int) : OpResult :=
  if entries.length > BATCH_LIMIT then
    ⟨"Error: Batch size exceeds limit of 100 entries.", store, none⟩
  else
    match validateBatch store entries with
    | some msg => ⟨msg, store, none⟩
    | none =>
      let st := insertBatch store entries now ttl
      ⟨"Batch create operation successful.", st, some (saveToFile st)⟩

/-- Atomic events of one operation, used to model the locking
discipline of src/kvstoe.hpp: acquiring and releasing the single
per-store mutex `mtx`, touching the in-memory map, and writing the
snapshot file. -/
inductive Action where
  | lock : Action
  | unlock : Action
  | mapRead : Action
  | mapWrite : Action
  | fileWrite : Action
deriving DecidableEq, Repr

/-- Event trace of saveToFile, src/kvstoe.hpp lines 26-41: the body is
wrapped in `lock_guard<mutex> lock(mtx)` and writes the file. -/
def saveToFileTrace : List Action := [.lock, .fileWrite, .unlock]

/-- Event trace of the success path of create, src/kvstoe.hpp lines
96-109: the body has no lock_guard; it reads the map for the duplicate
check, assigns the new entry, and calls saveToFile (whose own
lock_guard contributes the only lock events). -/
def createSuccessTrace : List Action :=
  [.mapRead, .mapWrite] ++ saveToFileTrace

/-- Event trace of the found path of remove, src/kvstoe.hpp lines
124-131: no lock_guard in the body; map read for the presence check,
erase, then the saveToFile call. -/
def removeFoundTrace : List Action :=
  [.mapRead, .mapWrite] ++ saveToFileTrace

/-- Event trace of the expired path of read, src/kvstoe.hpp lines
111-122: lock_guard over the whole body; presence check, expiry check,
erase, then the saveToFile call nested inside the held lock. -/
def readExpiredTrace : List Action :=
  [.lock, .mapRead, .mapRead, .mapWrite] ++ saveToFileTrace ++ [.unlock]

/-- Event trace of the success path of batchCreate, src/kvstoe.hpp
lines 133-159: lock_guard over the whole body; validation reads,
insertion writes, then the saveToFile call nested inside the held
lock. -/
def batchCreateSuccessTrace : List Action :=
  [.lock, .mapRead, .mapWrite] ++ saveToFileTrace ++ [.unlock]

/-- Event trace of cleanupExpiredKeys, src/kvstoe.hpp lines 65-74:
lock_guard over the whole body; the sweep reads and erases entries. -/
def cleanupTrace : List Action := [.lock, .mapRead, .mapWrite, .unlock]

/-- Whether every map access and file write in the trace happens while
the lock depth is positive, starting from depth `d`. -/
def effectsLocked : List Action → Nat → Bool
  | [], _ => true
  | Action.lock :: rest, d => effectsLocked rest (d + 1)
  | Action.unlock :: rest, d => effectsLocked rest (d - 1)
  | _ :: rest, d => decide (0 < d) && effectsLocked rest d

/-- Whether the trace acquires the mutex while it is already held.
`std::mutex` is not recursive, so a trace with this property
self-deadlocks (undefined behavior in the C++ standard). -/
def relocksHeldMutex : List Action → Nat → Bool
  | [], _ => false
  | Action.lock :: rest, d => decide (0 < d) || relocksHeldMutex rest (d + 1)
  | Action.unlock :: rest, d => relocksHeldMutex rest (d - 1)
  | _ :: rest, d => relocksHeldMutex rest d

end KVStore

open KVStore

theorem lookup_insertKey_self (s : Store) (k : String) (e : ValueEntry) :
    lookupKey (insertKey s k e) k = some e := by
  induction s with
  | nil => simp [insertKey, lookupKey]
  | cons p rest ih =>
    obtain ⟨k1, e1⟩ := p
    by_cases h : k1 = k
    · simp [insertKey, h, lookupKey]
    · simp [insertKey, h, lookupKey, ih]

theorem lookup_eraseKey_self (s : Store) (k : String) :
    lookupKey (eraseKey s k) k = none := by
  induction s with
  | nil => rfl
  | cons p rest ih =>
    obtain ⟨k1, e1⟩ := p
    by_cases h : k1 = k
    · simpa [eraseKey, List.filter_cons, h] using ih
    · simpa [eraseKey, List.filter_cons, h, lookupKey] using ih

theorem insertKey_append_of_not_mem (acc : Store) (k : String) (e : ValueEntry)
    (h : k ∉ acc.map Prod.fst) :
    insertKey acc k e = acc ++ [(k, e)] := by
  induction acc with
  | nil => rfl
  | cons p rest ih =>
    obtain ⟨k1, e1⟩ := p
    simp only [List.map_cons, List.mem_cons] at h
    push_neg at h
    have hne : ¬k1 = k := fun hh => h.1 hh.symm
    simp [insertKey, hne, ih h.2]

theorem foldl_insertKey_append (l : List (String × ValueEntry)) :
    ∀ acc : Store, (l.map Prod.fst).Nodup →
      (∀ k ∈ l.map Prod.fst, k ∉ acc.map Prod.fst) →
      l.foldl (fun s p => insertKey s p.1 p.2) acc = acc ++ l := by
  induction l with
  | nil => intro acc _ _; simp
  | cons p rest ih =>
    intro acc hnd hdisj
    obtain ⟨k, e⟩ := p
    simp only [List.map_cons, List.nodup_cons] at hnd
    rw [List.foldl_cons]
    rw [insertKey_append_of_not_mem acc k e (hdisj k (by simp))]
    rw [ih (acc ++ [(k, e)]) hnd.2 ?_]
    · simp
    · intro k2 hk2
      simp only [List.map_append, List.mem_append, List.map_cons, List.map_nil,
        List.mem_singleton, not_or]
      refine ⟨hdisj k2 (by simp [hk2]), ?_⟩
      intro hk
      exact hnd.1 (hk ▸ hk2)

theorem validateBatch_none (store : Store) (entries : List (String × Json))
    (hvalid : ∀ p ∈ entries, p.1.length ≤ 32 ∧ p.2.dump.length ≤ 16384)
    (hfresh : ∀ p ∈ entries, lookupKey store p.1 = none) :
    validateBatch store entries = none := by
  induction entries with
  | nil => rfl
  | cons p rest ih =>
    obtain ⟨k, v⟩ := p
    have h1 := hvalid (k, v) (by simp)
    have h2 := hfresh (k, v) (by simp)
    have hc1 : ¬(k.length > MAX_KEY_LENGTH ∨ v.dump.length > MAX_VALUE_SIZE) := by
      simp only [MAX_KEY_LENGTH, MAX_VALUE_SIZE]
      push_neg
      exact ⟨h1.1, by simpa using h1.2⟩
    rw [validateBatch, if_neg hc1, if_neg (by simp [h2])]
    exact ih (fun q hq => hvalid q (List.mem_cons_of_mem _ hq))
      (fun q hq => hfresh q (List.mem_cons_of_mem _ hq))

/-- C1 counterexample: on an empty store, a batch repeating the key
`a` with two different values passes batchCreate validation (the
validation loop only checks keys against the pre-existing map), the
call reports success rather than the duplicate-key error, and the
repeated key ends up bound to the second value — so the claim that
batchCreate fails DuplicateKey on intra-batch duplicates and stores
neither value is false on the code. -/
theorem batchCreate_intra_dup_not_detected :
    (batchCreate [] [("a", ⟨"1"⟩), ("a", ⟨"2"⟩)] 0 0).msg =
      "Batch create operation successful." ∧
    (batchCreate [] [("a", ⟨"1"⟩), ("a", ⟨"2"⟩)] 0 0).msg ≠
      "Error: Duplicate key found in batch." ∧
    lookupKey (batchCreate [] [("a", ⟨"1"⟩), ("a", ⟨"2"⟩)] 0 0).store "a" =
      some ⟨⟨"2"⟩, 0⟩ := by
  refine ⟨by decide, by decide, by decide⟩

/-- C1 amended: batchCreate does not detect duplicate keys inside the
batch itself. For every batch within the length limit whose entries all
satisfy the size limits and whose keys are all absent from the store —
including batches repeating a key — the call succeeds and applies the
insertions in order (a later occurrence of a repeated key overwrites
the earlier one), with one persist at the end. -/
theorem batchCreate_fresh_valid_succeeds
    (store : Store) (entries : List (String × Json)) (now ttl : Int)
    (hlen : entries.length ≤ 100)
    (hvalid : ∀ p ∈ entries, p.1.length ≤ 32 ∧ p.2.dump.length ≤ 16384)
    (hfresh : ∀ p ∈ entries, lookupKey store p.1 = none) :
    batchCreate store entries now ttl =
      ⟨"Batch create operation successful.", insertBatch store entries now ttl,
        some (saveToFile (insertBatch store entries now ttl))⟩ := by
  have hv := validateBatch_none store entries hvalid hfresh
  have hlen2 : ¬entries.length > BATCH_LIMIT := by
    simp only [BATCH_LIMIT]
    omega
  rw [batchCreate, if_neg hlen2, hv]

theorem batchCreate_fresh_valid_succeeds_witness :
    batchCreate [] [("a", ⟨"1"⟩), ("a", ⟨"2"⟩)] 0 0 =
      ⟨"Batch create operation successful.",
        insertBatch [] [("a", ⟨"1"⟩), ("a", ⟨"2"⟩)] 0 0,
        some (saveToFile (insertBatch [] [("a", ⟨"1"⟩), ("a", ⟨"2"⟩)] 0 0))⟩ :=
  batchCreate_fresh_valid_succeeds [] _ 0 0 (by decide) (by decide) (by decide)

/-- C2: on an empty store, saveToFile of src/kvstoe.hpp serializes the
default-constructed json value, which is null, so the snapshot file
content is the literal `null` and not the required `\x7b\x7d`. -/
theorem saveToFile_empty_writes_null :
    saveToFile [] = JsonFile.null ∧
    (saveToFile []).dump = "null" ∧
    (saveToFile []).dump ≠ "\x7b\x7d" := by
  refine ⟨rfl, rfl, by decide⟩

/-- C3: for every key present in the map but expired at the instant of
the call, KVStore.read erases the entry, persists the shrunken map, and
returns the KeyExpired message, which differs from the KeyNotFound
message; reading the same key against the resulting map reports
KeyNotFound because the entry is gone. -/
theorem read_expired_deletes_persists_and_reports
    (store : Store) (key : String) (now : Int) (e : ValueEntry)
    (hfound : lookupKey store key = some e)
    (hexp : isExpired store key now = true) :
    KVStore.read store key now =
      ⟨"Error: Key has expired.", eraseKey store key,
        some (saveToFile (eraseKey store key))⟩ ∧
    "Error: Key has expired." ≠ "Error: Key not found." ∧
    (KVStore.read (eraseKey store key) key now).msg = "Error: Key not found." := by
  refine ⟨?_, by decide, ?_⟩
  · simp [KVStore.read, hfound, hexp]
  · simp [KVStore.read, lookup_eraseKey_self]

theorem read_expired_witness :
    KVStore.read [("k", ⟨⟨"7"⟩, 5⟩)] "k" 6 =
      ⟨"Error: Key has expired.", eraseKey [("k", ⟨⟨"7"⟩, 5⟩)] "k",
        some (saveToFile (eraseKey [("k", ⟨⟨"7"⟩, 5⟩)] "k"))⟩ ∧
    "Error: Key has expired." ≠ "Error: Key not found." ∧
    (KVStore.read (eraseKey [("k", ⟨⟨"7"⟩, 5⟩)] "k") "k" 6).msg = "Error: Key not found." :=
  read_expired_deletes_persists_and_reports _ "k" 6 ⟨⟨"7"⟩, 5⟩ (by decide) (by decide)

/-- C4: for every key bound in the map to an entry, the expiry test
depends only on that entry and the instant `now`: when the stored ttl
field is 0 (never) it is false for every `now`; otherwise it is true
exactly when `now` is strictly greater than the stored expiry instant,
so at `now` equal to the expiry instant the entry is still valid. -/
theorem isExpired_pure_strict
    (store : Store) (key : String) (now : Int) (e : ValueEntry)
    (hfound : lookupKey store key = some e) :
    (e.ttl = 0 → isExpired store key now = false) ∧
    (e.ttl ≠ 0 → (isExpired store key now = true ↔ now > e.ttl)) ∧
    (now = e.ttl → isExpired store key now = false) := by
  refine ⟨?_, ?_, ?_⟩ <;> intro h <;> simp [isExpired, hfound, h]

theorem isExpired_pure_strict_witness :
    isExpired [("k", ⟨⟨"7"⟩, 5⟩)] "k" 5 = false ∧
    isExpired [("k", ⟨⟨"7"⟩, 5⟩)] "k" 6 = true ∧
    isExpired [("n", ⟨⟨"7"⟩, 0⟩)] "n" 999 = false := by
  refine ⟨?_, ?_, ?_⟩
  · exact (isExpired_pure_strict _ "k" 5 ⟨⟨"7"⟩, 5⟩ (by decide)).2.2 rfl
  · exact ((isExpired_pure_strict _ "k" 6 ⟨⟨"7"⟩, 5⟩ (by decide)).2.1
      (by decide)).mpr (by decide)
  · exact (isExpired_pure_strict _ "n" 999 ⟨⟨"7"⟩, 0⟩ (by decide)).1 rfl

/-- C5: the claimed locking discipline fails on src/kvstoe.hpp. The
success paths of create and remove touch the map and trigger the file
write with the mutex held only inside saveToFile itself, not for the
duration of the operation (their bodies have no lock_guard); and the
expired path of KVStore.read and the success path of batchCreate call
saveToFile while already holding the non-recursive mutex, which
re-acquires it (self-deadlock). Only the sweeper pass
(cleanupExpiredKeys) respects the discipline. -/
theorem lock_discipline_violated :
    effectsLocked createSuccessTrace 0 = false ∧
    effectsLocked removeFoundTrace 0 = false ∧
    relocksHeldMutex readExpiredTrace 0 = true ∧
    relocksHeldMutex batchCreateSuccessTrace 0 = true ∧
    effectsLocked cleanupTrace 0 = true := by decide

/-- C6: for every key present in the map but expired at the instant of
the call, remove treats it exactly as a present live key: it returns
the deletion success message (not KeyNotFound and not any expiry
message), erases the entry, and persists the shrunken map. -/
theorem remove_expired_treated_as_present
    (store : Store) (key : String) (now : Int) (e : ValueEntry)
    (hfound : lookupKey store key = some e)
    (_hexp : isExpired store key now = true) :
    KVStore.remove store key =
      ⟨"Key-value pair deleted successfully.", eraseKey store key,
        some (saveToFile (eraseKey store key))⟩ ∧
    "Key-value pair deleted successfully." ≠ "Error: Key not found." := by
  exact ⟨by simp [KVStore.remove, hfound], by decide⟩

theorem remove_expired_witness :
    KVStore.remove [("k", ⟨⟨"7"⟩, 5⟩)] "k" =
      ⟨"Key-value pair deleted successfully.", eraseKey [("k", ⟨⟨"7"⟩, 5⟩)] "k",
        some (saveToFile (eraseKey [("k", ⟨⟨"7"⟩, 5⟩)] "k"))⟩ ∧
    "Key-value pair deleted successfully." ≠ "Error: Key not found." :=
  remove_expired_treated_as_present _ "k" 6 ⟨⟨"7"⟩, 5⟩ (by decide) (by decide)

/-- C7: for every key longer than MAX_KEY_LENGTH = 32, create returns
the KeyTooLong message with the map unchanged and nothing persisted;
and for every key of length exactly 32 the length check passes, so the
call never returns the KeyTooLong message. -/
theorem create_key_too_long_rejected
    (store : Store) (key : String) (value : Json) (now ttl : Int) :
    (key.length > 32 →
      create store key value now ttl =
        ⟨"Error: Key length exceeds 32 characters.", store, none⟩) ∧
    (key.length = 32 →
      (create store key value now ttl).msg ≠
        "Error: Key length exceeds 32 characters.") := by
  constructor
  · intro h
    simp [create, MAX_KEY_LENGTH, h]
  · intro h
    by_cases h2 : value.dump.length > MAX_VALUE_SIZE
    · simp [create, MAX_KEY_LENGTH, h, h2]
    · by_cases h3 : (lookupKey store key).isSome
      · simp [create, MAX_KEY_LENGTH, h, h2, h3]
      · simp [create, MAX_KEY_LENGTH, h, h2, h3]

theorem create_key_too_long_witness :
    create [] "aaaaaaaaaaaaaaaaaaaaaaaaaaaaaaaaa" ⟨"1"⟩ 0 0 =
      ⟨"Error: Key length exceeds 32 characters.", [], none⟩ ∧
    (create [] "aaaaaaaaaaaaaaaaaaaaaaaaaaaaaaaa" ⟨"1"⟩ 0 0).msg ≠
      "Error: Key length exceeds 32 characters." := by
  constructor
  · exact (create_key_too_long_rejected [] _ ⟨"1"⟩ 0 0).1 (by decide)
  · exact (create_key_too_long_rejected [] _ ⟨"1"⟩ 0 0).2 (by decide)

/-- C8: for every batch longer than BATCH_LIMIT = 100 entries —
whatever the entries contain and whatever the store holds — batchCreate
returns the BatchTooLarge message with the map unchanged and nothing
persisted, before any per-entry validation or insertion. -/
theorem batchCreate_too_large_rejected
    (store : Store) (entries : List (String × Json)) (now ttl : Int)
    (h : entries.length > 100) :
    batchCreate store entries now ttl =
      ⟨"Error: Batch size exceeds limit of 100 entries.", store, none⟩ := by
  simp [batchCreate, BATCH_LIMIT, h]

theorem batchCreate_too_large_witness :
    batchCreate [] (List.replicate 101 ("k", ⟨"1"⟩)) 0 0 =
      ⟨"Error: Batch size exceeds limit of 100 entries.", [], none⟩ :=
  batchCreate_too_large_rejected [] _ 0 0 (by simp)

/-- C9: snapshot round-trip. For every map state (unique keys, as the
map invariant guarantees), loading the file produced by saveToFile into
a fresh empty store reconstructs exactly the same map: the same keys in
the same order, each bound to the same value and the same absolute
expiry timestamp. -/
theorem snapshot_round_trip (store : Store)
    (hnd : (store.map Prod.fst).Nodup) :
    loadFromFile (saveToFile store) [] = store := by
  by_cases h : store = []
  · subst h; rfl
  · rw [saveToFile, if_neg h]
    show store.foldl (fun s p => insertKey s p.1 p.2) [] = store
    simpa using foldl_insertKey_append store [] hnd (by simp)

theorem snapshot_round_trip_witness :
    loadFromFile (saveToFile [("a", ⟨⟨"1"⟩, 0⟩), ("b", ⟨⟨"2"⟩, 99⟩)]) [] =
      [("a", ⟨⟨"1"⟩, 0⟩), ("b", ⟨⟨"2"⟩, 99⟩)] :=
  snapshot_round_trip _ (by decide)

/-- C10 counterexample: with the clock at 5 seconds since epoch,
create with ttlSeconds = -5 (negative) succeeds but stores the ttl
field now + ttl = 0, which the store interprets as never expiring — so
the very next KVStore.read (even arbitrarily far in the future) returns the
value instead of failing KeyExpired, contradicting the claim for this
negative ttl. -/
theorem create_negative_ttl_epoch_counterexample :
    (create [] "k" ⟨"1"⟩ 5 (-5)).msg = "Key-value pair created successfully." ∧
    lookupKey (create [] "k" ⟨"1"⟩ 5 (-5)).store "k" = some ⟨⟨"1"⟩, 0⟩ ∧
    (KVStore.read (create [] "k" ⟨"1"⟩ 5 (-5)).store "k" 1000000).msg = "1" ∧
    (KVStore.read (create [] "k" ⟨"1"⟩ 5 (-5)).store "k" 1000000).msg ≠
      "Error: Key has expired." := by
  refine ⟨by decide, by decide, by decide, by decide⟩

/-- C10 amended: for every negative ttlSeconds such that now + ttl is
not exactly 0, create does not reject the argument: on a valid key and
value and an absent key it succeeds and stores expiresAt = now + ttl,
an instant strictly in the past, so every subsequent KVStore.read at or after
the creation instant fails KeyExpired rather than returning the value.
(When now + ttl = 0 the stored field 0 means never, and the entry never
expires.) -/
theorem create_negative_ttl_immediately_expired
    (store : Store) (key : String) (value : Json) (now ttl now2 : Int)
    (httl : ttl < 0) (hne : now + ttl ≠ 0)
    (hkey : key.length ≤ 32) (hval : value.dump.length ≤ 16384)
    (habs : lookupKey store key = none) (hlater : now ≤ now2) :
    (create store key value now ttl).msg = "Key-value pair created successfully." ∧
    lookupKey (create store key value now ttl).store key = some ⟨value, now + ttl⟩ ∧
    (KVStore.read (create store key value now ttl).store key now2).msg =
      "Error: Key has expired." := by
  have httl0 : ¬ttl = 0 := by omega
  have hkey2 : ¬key.length > MAX_KEY_LENGTH := by
    simp only [MAX_KEY_LENGTH]; omega
  have hval2 : ¬value.dump.length > MAX_VALUE_SIZE := by
    simp only [MAX_VALUE_SIZE]; omega
  have hstore : (create store key value now ttl).store =
      insertKey store key ⟨value, now + ttl⟩ := by
    simp [create, hkey2, hval2, habs, httl0]
  have hlook : lookupKey (create store key value now ttl).store key =
      some ⟨value, now + ttl⟩ := by
    rw [hstore]; exact lookup_insertKey_self store key _
  refine ⟨by simp [create, hkey2, hval2, habs], hlook, ?_⟩
  have hexp : isExpired (create store key value now ttl).store key now2 = true := by
    simp only [isExpired, hlook]
    simp only [Bool.and_eq_true, decide_eq_true_eq]
    exact ⟨hne, by omega⟩
  rw [KVStore.read]
  rw [hlook]
  simp [hexp]

theorem create_negative_ttl_witness :
    (create [] "k" ⟨"1"⟩ 10 (-3)).msg = "Key-value pair created successfully." ∧
    lookupKey (create [] "k" ⟨"1"⟩ 10 (-3)).store "k" = some ⟨⟨"1"⟩, 10 + (-3)⟩ ∧
    (KVStore.read (create [] "k" ⟨"1"⟩ 10 (-3)).store "k" 10).msg =
      "Error: Key has expired." :=
  create_negative_ttl_immediately_expired [] "k" ⟨"1"⟩ 10 (-3) 10
    (by decide) (by decide) (by decide) (by decide) (by decide) (by decide)
